import Mathlib

/-!
Verification of the payment-submission and queue-dispatch core of the
repository (FastAPI payments service).  The definitions below are a shallow
embedding of:

  * `src/api/schemas/payment.py`  — `PaymentCreate`, `PaymentResponse`
  * `src/api/crud/payment.py`     — `create_payment`, `get_payment`
  * `src/api/routers/payments.py` — `add_payment`, `create_payment_queue`,
                                    `create_bulk_payments`, `read_payment`

Monetary amounts are rationals (the pydantic `condecimal` values embed in ℚ);
the relational store is a list of rows plus an auto-increment counter and a
clock supplying `created_at`.  The SQS transport is an oracle function
parameter.  `random.uniform` results are threaded in as explicit parameters.
-/

namespace PaymentsApi

/-- Errors surfaced to the HTTP caller: a pydantic/FastAPI request-validation
failure (HTTP 422), or an `HTTPException` with a status code and detail. -/
inductive ApiError where
  | validationFailed (msg : String)
  | http (status : Nat) (detail : String)
deriving Repr, DecidableEq

/-- The raw client request body for the payment endpoints, before pydantic
validation: `{user_id, amount, currency?, description?}`.  `currency = none`
models an absent/null currency field. -/
structure RawPayment where
  user_id : Int
  amount : Rat
  currency : Option String
  description : Option String
deriving Repr, DecidableEq

/-- `PaymentCreate` from `src/api/schemas/payment.py` after validation:
`amount: condecimal(gt=0, max_digits=12, decimal_places=2)`,
`currency: Optional[str] = "INR"`, `description: Optional[str] = None`. -/
structure PaymentCreate where
  user_id : Int
  amount : Rat
  currency : Option String
  description : Option String
deriving Repr, DecidableEq

/-- The constraint enforced by `condecimal(gt=0, max_digits=12,
decimal_places=2)`: positive, at most two decimal places, at most twelve
digits in total. -/
def isValidAmount (q : Rat) : Prop :=
  0 < q ∧ (q * 100).den = 1 ∧ q * 100 < 10 ^ 12

instance (q : Rat) : Decidable (isValidAmount q) := by
  unfold isValidAmount; infer_instance

/-- FastAPI parsing of the request body against `PaymentCreate`: a request
whose amount violates the `condecimal` bounds is rejected with a 422
validation error before any handler runs. -/
def parsePaymentCreate (raw : RawPayment) : Except ApiError PaymentCreate :=
  if isValidAmount raw.amount then
    .ok ⟨raw.user_id, raw.amount, raw.currency, raw.description⟩
  else
    .error (.validationFailed "amount: input should be greater than 0 with at most 2 decimal places")

/-- A row of the `payments` table (`Payment` in `src/api/models.py`):
auto-increment `id`, `user_id`, `amount NUMERIC(12,2)`, `currency` (default
"INR"), `status` (default "PAID"), nullable `description`, server-side
`created_at`. -/
structure Payment where
  id : Nat
  user_id : Int
  amount : Rat
  currency : String
  status : String
  description : Option String
  created_at : Nat
deriving Repr, DecidableEq

/-- The relational store: the rows of the `payments` table, the
auto-increment counter for the primary key, and a clock supplying the
`created_at` server default. -/
structure Store where
  rows : List Payment
  next_id : Nat
  now : Nat
deriving Repr, DecidableEq

def Store.empty : Store := ⟨[], 1, 0⟩

/-- Python's `x or default` for an optional string: `None` and the empty
string are falsy. -/
def pyOr (c : Option String) (d : String) : String :=
  match c with
  | none => d
  | some s => if s = "" then d else s

/-- `create_payment` from `src/api/crud/payment.py`: builds a `Payment` row
with `currency = payment_in.currency or "INR"` and `status = "PAID"`, inserts
and commits it, and returns the refreshed row (carrying the generated id and
timestamp) together with the updated store. -/
def create_payment (db : Store) (payment_in : PaymentCreate) : Payment × Store :=
  let row : Payment :=
    { id := db.next_id
      user_id := payment_in.user_id
      amount := payment_in.amount
      currency := pyOr payment_in.currency "INR"
      status := "PAID"
      description := payment_in.description
      created_at := db.now }
  (row, { rows := db.rows ++ [row], next_id := db.next_id + 1, now := db.now + 1 })

/-- `get_payment` from `src/api/crud/payment.py`:
`db.query(Payment).filter(Payment.id == payment_id).first()`. -/
def get_payment (db : Store) (payment_id : Nat) : Option Payment :=
  db.rows.find? (fun r => r.id == payment_id)

/-- `PaymentResponse` from `src/api/schemas/payment.py`:
`{success, payment_id, message}`. -/
structure PaymentResponse where
  success : Bool
  payment_id : Option Nat
  message : Option String
deriving Repr, DecidableEq

/-- `DEFAULT_USER_ID = 32` in `src/api/routers/payments.py`. -/
def DEFAULT_USER_ID : Int := 32

/-- The handler body of `POST /payments/` (`add_payment`): overwrites
`user_id` with `DEFAULT_USER_ID`, replaces a falsy or non-positive amount by
a random one (`rand` is the value `round(random.uniform(10, 5000), 2)` would
produce), persists via `create_payment`, and returns
`PaymentResponse(success=True, payment_id=payment.id, message=...)`.
Also returns the persisted row and the updated store. -/
def add_payment (db : Store) (rand : Rat) (payment_in : PaymentCreate) :
    PaymentResponse × Payment × Store :=
  let p1 := { payment_in with user_id := DEFAULT_USER_ID }
  let p2 := if p1.amount ≤ 0 then { p1 with amount := rand } else p1
  let r := create_payment db p2
  (⟨true, some r.1.id, some "Payment recorded successfully"⟩, r.1, r.2)

/-- The complete `submit` operation: FastAPI validates the raw body against
`PaymentCreate` (rejecting bad amounts with a 422) and only then runs the
`add_payment` handler. -/
def submit (db : Store) (rand : Rat) (raw : RawPayment) :
    Except ApiError (PaymentResponse × Payment × Store) :=
  match parsePaymentCreate raw with
  | .error e => .error e
  | .ok p => .ok (add_payment db rand p)

/-- The store as it stands after a `submit` call: unchanged when the request
was rejected. -/
def submitFinalStore (db : Store) (rand : Rat) (raw : RawPayment) : Store :=
  match submit db rand raw with
  | .ok (_, _, db2) => db2
  | .error _ => db

/-- The handler body of `GET /payments/{payment_id}` (`read_payment`).  When
`get_payment` finds no row the code raises `HTTPException(404, "Payment not
found")` inside the `try`, but the blanket `except Exception` catches that
very exception and re-raises `HTTPException(500, str(e))`, where
`str(HTTPException(404, "Payment not found"))` is
`"404: Payment not found"`. -/
def read_payment (db : Store) (payment_id : Nat) : Except ApiError Payment :=
  match get_payment db payment_id with
  | none => .error (.http 500 "404: Payment not found")
  | some p => .ok p

/-- Store invariant: every persisted id is below the auto-increment counter
(the spec: "identifier unique and monotonically assigned by the store"). -/
def StoreWF (db : Store) : Prop :=
  ∀ row ∈ db.rows, row.id < db.next_id

/-! ### Helper lemmas -/

theorem add_payment_eq (db : Store) (rand : Rat) (p : PaymentCreate)
    (hp : 0 < p.amount) :
    add_payment db rand p =
      (⟨true, some db.next_id, some "Payment recorded successfully"⟩,
       ⟨db.next_id, DEFAULT_USER_ID, p.amount, pyOr p.currency "INR", "PAID",
        p.description, db.now⟩,
       ⟨db.rows ++ [⟨db.next_id, DEFAULT_USER_ID, p.amount,
          pyOr p.currency "INR", "PAID", p.description, db.now⟩],
        db.next_id + 1, db.now + 1⟩) := by
  simp [add_payment, create_payment, not_le.mpr hp]

theorem parse_eq_ok_of_valid (raw : RawPayment) (hv : isValidAmount raw.amount) :
    parsePaymentCreate raw =
      .ok ⟨raw.user_id, raw.amount, raw.currency, raw.description⟩ := by
  simp [parsePaymentCreate, if_pos hv]

theorem submit_eq_ok (db : Store) (rand : Rat) (raw : RawPayment)
    (hv : isValidAmount raw.amount) :
    submit db rand raw =
      .ok (add_payment db rand ⟨raw.user_id, raw.amount, raw.currency, raw.description⟩) := by
  simp [submit, parsePaymentCreate, if_pos hv]

theorem valid_amount_100 : isValidAmount (100 : Rat) := by
  norm_num [isValidAmount]

/-- Concrete evaluation of a submit call on the empty store, used to
instantiate hypotheses of the theorems below. -/
theorem submit_empty_100 :
    submit Store.empty 1 ⟨7, 100, some "INR", none⟩ =
      .ok (⟨true, some 1, some "Payment recorded successfully"⟩,
           ⟨1, 32, 100, "INR", "PAID", none, 0⟩,
           ⟨[⟨1, 32, 100, "INR", "PAID", none, 0⟩], 2, 1⟩) := by
  rw [submit_eq_ok Store.empty 1 ⟨7, 100, some "INR", none⟩ valid_amount_100]
  rw [add_payment_eq Store.empty 1 _ valid_amount_100.1]
  simp [pyOr, Store.empty, DEFAULT_USER_ID]

/-! ### Claims about submit -/

/-- C1: a submitted request whose amount is not positive is rejected with a
validation failure and nothing is persisted: the store after the call equals
the store before it. -/
theorem submit_rejects_nonpositive (db : Store) (rand : Rat) (raw : RawPayment)
    (h : raw.amount ≤ 0) :
    submit db rand raw =
      .error (.validationFailed "amount: input should be greater than 0 with at most 2 decimal places")
      ∧ submitFinalStore db rand raw = db := by
  have hv : ¬ isValidAmount raw.amount := fun hv => absurd hv.1 (not_lt.mpr h)
  have he : submit db rand raw =
      .error (.validationFailed "amount: input should be greater than 0 with at most 2 decimal places") := by
    simp [submit, parsePaymentCreate, if_neg hv]
  exact ⟨he, by simp [submitFinalStore, he]⟩

theorem submit_rejects_nonpositive_witness :
    (⟨7, -5, some "INR", none⟩ : RawPayment).amount ≤ 0 ∧
      (submit Store.empty 1 ⟨7, -5, some "INR", none⟩ =
        .error (.validationFailed "amount: input should be greater than 0 with at most 2 decimal places")
        ∧ submitFinalStore Store.empty 1 ⟨7, -5, some "INR", none⟩ = Store.empty) :=
  ⟨by decide, submit_rejects_nonpositive Store.empty 1 ⟨7, -5, some "INR", none⟩ (by decide)⟩

/-- C2: a valid intent is accepted, the persisted/returned record carries the
input amount unchanged, and two consecutive submit calls return records with
distinct ids (the auto-increment counter advances on every insert). -/
theorem submit_amount_exact_and_ids_distinct (db : Store) (r1 r2 : Rat)
    (raw1 raw2 : RawPayment)
    (hv1 : isValidAmount raw1.amount) (hv2 : isValidAmount raw2.amount) :
    ∃ resp1 row1 db1 resp2 row2 db2,
      submit db r1 raw1 = .ok (resp1, row1, db1) ∧
      submit db1 r2 raw2 = .ok (resp2, row2, db2) ∧
      row1.amount = raw1.amount ∧ row2.amount = raw2.amount ∧
      row1.id ≠ row2.id := by
  have h1 := submit_eq_ok db r1 raw1 hv1
  rw [add_payment_eq db r1 _ hv1.1] at h1
  have h2 := submit_eq_ok
      ⟨db.rows ++ [⟨db.next_id, DEFAULT_USER_ID, raw1.amount,
          pyOr raw1.currency "INR", "PAID", raw1.description, db.now⟩],
        db.next_id + 1, db.now + 1⟩ r2 raw2 hv2
  rw [add_payment_eq _ r2 _ hv2.1] at h2
  exact ⟨_, _, _, _, _, _, h1, h2, rfl, rfl, by simp⟩

theorem submit_amount_exact_and_ids_distinct_witness :
    isValidAmount (⟨7, 100, some "INR", none⟩ : RawPayment).amount ∧
      isValidAmount (⟨8, 5 / 2, none, some "coffee"⟩ : RawPayment).amount ∧
      (∃ resp1 row1 db1 resp2 row2 db2,
        submit Store.empty 1 ⟨7, 100, some "INR", none⟩ = .ok (resp1, row1, db1) ∧
        submit db1 1 ⟨8, 5 / 2, none, some "coffee"⟩ = .ok (resp2, row2, db2) ∧
        row1.amount = (100 : Rat) ∧ row2.amount = (5 / 2 : Rat) ∧
        row1.id ≠ row2.id) :=
  ⟨by norm_num [isValidAmount], by norm_num [isValidAmount],
    submit_amount_exact_and_ids_distinct Store.empty 1 1 _ _
      (by norm_num [isValidAmount]) (by norm_num [isValidAmount])⟩

/-- Looking up a freshly appended row by its id finds exactly that row when
all earlier rows have smaller ids. -/
theorem find_append_fresh (row : Payment) :
    ∀ l : List Payment, (∀ x ∈ l, x.id < row.id) →
      (l ++ [row]).find? (fun r => r.id == row.id) = some row
  | [], _ => by simp
  | a :: t, h => by
    have ha : (a.id == row.id) = false := by
      simp only [beq_eq_false_iff_ne, ne_eq]
      exact Nat.ne_of_lt (h a (by simp))
    have ih := find_append_fresh row t (fun x hx => h x (by simp [hx]))
    simpa only [List.cons_append, List.find?_cons, ha] using ih

/-- In a well-formed store, looking up the freshly inserted row by its id
finds exactly that row. -/
theorem get_payment_after_insert (db : Store) (row : Payment)
    (hfresh : ∀ x ∈ db.rows, x.id < row.id) (next now : Nat) :
    get_payment ⟨db.rows ++ [row], next, now⟩ row.id = some row := by
  unfold get_payment
  exact find_append_fresh row db.rows hfresh

/-- C3: submitting a valid intent against a well-formed store and then
fetching the returned id yields the very record that was stored; its amount
and description equal the intent's, and its currency equals the intent's
whenever the intent supplied a non-empty currency. -/
theorem submit_fetch_roundtrip (db : Store) (rand : Rat) (raw : RawPayment)
    (hv : isValidAmount raw.amount) (hwf : StoreWF db) :
    ∃ resp row db2,
      submit db rand raw = .ok (resp, row, db2) ∧
      read_payment db2 row.id = .ok row ∧
      row.amount = raw.amount ∧
      row.description = raw.description ∧
      ∀ c, raw.currency = some c → c ≠ "" → row.currency = c := by
  have h1 := submit_eq_ok db rand raw hv
  rw [add_payment_eq db rand _ hv.1] at h1
  refine ⟨_, _, _, h1, ?_, rfl, rfl, ?_⟩
  · have hg := get_payment_after_insert db
      ⟨db.next_id, DEFAULT_USER_ID, raw.amount, pyOr raw.currency "INR",
        "PAID", raw.description, db.now⟩
      (fun x hx => hwf x hx) (db.next_id + 1) (db.now + 1)
    simp [read_payment, hg]
  · intro c hc hne
    simp [hc, pyOr, hne]

theorem submit_fetch_roundtrip_witness :
    isValidAmount (⟨9, 251 / 4, some "USD", some "lunch"⟩ : RawPayment).amount ∧
      StoreWF Store.empty ∧
      (∃ resp row db2,
        submit Store.empty 1 ⟨9, 251 / 4, some "USD", some "lunch"⟩ = .ok (resp, row, db2) ∧
        read_payment db2 row.id = .ok row ∧
        row.amount = (251 / 4 : Rat) ∧
        row.description = some "lunch" ∧
        ∀ c, (some "USD" : Option String) = some c → c ≠ "" → row.currency = c) :=
  ⟨by norm_num [isValidAmount], fun row hr => by simp [Store.empty] at hr,
    submit_fetch_roundtrip Store.empty 1 ⟨9, 251 / 4, some "USD", some "lunch"⟩
      (by norm_num [isValidAmount]) (fun row hr => by simp [Store.empty] at hr)⟩

/-- C6: every record persisted by a successful submit has status "PAID", and
the only row the call adds to the store is that record. -/
theorem submit_status_paid (db : Store) (rand : Rat) (raw : RawPayment)
    (resp : PaymentResponse) (row : Payment) (db2 : Store)
    (h : submit db rand raw = .ok (resp, row, db2)) :
    row.status = "PAID" ∧ db2.rows = db.rows ++ [row] := by
  by_cases hv : isValidAmount raw.amount
  · have he := submit_eq_ok db rand raw hv
    rw [add_payment_eq db rand _ hv.1] at he
    rw [he] at h
    injection h with h'
    rw [Prod.mk.injEq, Prod.mk.injEq] at h'
    obtain ⟨h1, h2, h3⟩ := h'
    subst h1
    subst h2
    subst h3
    exact ⟨rfl, rfl⟩
  · rw [show submit db rand raw = .error
        (.validationFailed "amount: input should be greater than 0 with at most 2 decimal places")
      from by simp [submit, parsePaymentCreate, if_neg hv]] at h
    cases h

theorem submit_status_paid_witness :
    submit Store.empty 1 ⟨7, 100, some "INR", none⟩ =
      .ok (⟨true, some 1, some "Payment recorded successfully"⟩,
           ⟨1, 32, 100, "INR", "PAID", none, 0⟩,
           ⟨[⟨1, 32, 100, "INR", "PAID", none, 0⟩], 2, 1⟩) ∧
      ((⟨1, 32, 100, "INR", "PAID", none, 0⟩ : Payment).status = "PAID" ∧
        (⟨[⟨1, 32, 100, "INR", "PAID", none, 0⟩], 2, 1⟩ : Store).rows =
          Store.empty.rows ++ [⟨1, 32, 100, "INR", "PAID", none, 0⟩]) :=
  ⟨submit_empty_100,
    submit_status_paid Store.empty 1 ⟨7, 100, some "INR", none⟩ _ _ _ submit_empty_100⟩

/-- C7: an intent submitted without a currency is stored with currency "INR",
and every amount accepted by validation is positive with at most two decimal
places. -/
theorem currency_defaults_and_amount_two_decimals (db : Store) (rand : Rat)
    (raw : RawPayment) (p : PaymentCreate)
    (hc : raw.currency = none) (hp : parsePaymentCreate raw = .ok p) :
    (0 < p.amount ∧ (p.amount * 100).den = 1) ∧
      ∃ resp row db2,
        submit db rand raw = .ok (resp, row, db2) ∧ row.currency = "INR" := by
  have hv : isValidAmount raw.amount := by
    by_cases hv : isValidAmount raw.amount
    · exact hv
    · simp [parsePaymentCreate, if_neg hv] at hp
  have hpe : p = ⟨raw.user_id, raw.amount, raw.currency, raw.description⟩ := by
    simp [parsePaymentCreate, if_pos hv] at hp
    exact hp.symm
  constructor
  · rw [hpe]
    exact ⟨hv.1, hv.2.1⟩
  · have h1 := submit_eq_ok db rand raw hv
    rw [add_payment_eq db rand _ hv.1] at h1
    exact ⟨_, _, _, h1, by simp [hc, pyOr]⟩

theorem currency_defaults_and_amount_two_decimals_witness :
    (⟨7, 100, none, none⟩ : RawPayment).currency = none ∧
      parsePaymentCreate ⟨7, 100, none, none⟩ = .ok ⟨7, 100, none, none⟩ ∧
      ((0 < (⟨7, 100, none, none⟩ : PaymentCreate).amount ∧
          ((⟨7, 100, none, none⟩ : PaymentCreate).amount * 100).den = 1) ∧
        ∃ resp row db2,
          submit Store.empty 1 ⟨7, 100, none, none⟩ = .ok (resp, row, db2) ∧
          row.currency = "INR") :=
  ⟨rfl, parse_eq_ok_of_valid ⟨7, 100, none, none⟩ valid_amount_100,
    currency_defaults_and_amount_two_decimals Store.empty 1 ⟨7, 100, none, none⟩
      ⟨7, 100, none, none⟩ rfl (parse_eq_ok_of_valid ⟨7, 100, none, none⟩ valid_amount_100)⟩

/-- C8: on success, the inner persist step returns exactly the stored row —
including the generated id (the auto-increment counter) and the creation
timestamp (the store clock) — and the HTTP response is
`{success := true, payment_id := that id, message := ...}`. -/
theorem submit_returns_stored_record (db : Store) (rand : Rat) (raw : RawPayment)
    (resp : PaymentResponse) (row : Payment) (db2 : Store)
    (h : submit db rand raw = .ok (resp, row, db2)) :
    resp = ⟨true, some row.id, some "Payment recorded successfully"⟩ ∧
      db2.rows = db.rows ++ [row] ∧
      row.id = db.next_id ∧ row.created_at = db.now := by
  by_cases hv : isValidAmount raw.amount
  · have he := submit_eq_ok db rand raw hv
    rw [add_payment_eq db rand _ hv.1] at he
    rw [he] at h
    injection h with h'
    rw [Prod.mk.injEq, Prod.mk.injEq] at h'
    obtain ⟨h1, h2, h3⟩ := h'
    subst h1
    subst h2
    subst h3
    exact ⟨rfl, rfl, rfl, rfl⟩
  · rw [show submit db rand raw = .error
        (.validationFailed "amount: input should be greater than 0 with at most 2 decimal places")
      from by simp [submit, parsePaymentCreate, if_neg hv]] at h
    cases h

theorem submit_returns_stored_record_witness :
    submit Store.empty 1 ⟨7, 100, some "INR", none⟩ =
      .ok (⟨true, some 1, some "Payment recorded successfully"⟩,
           ⟨1, 32, 100, "INR", "PAID", none, 0⟩,
           ⟨[⟨1, 32, 100, "INR", "PAID", none, 0⟩], 2, 1⟩) ∧
      ((⟨true, some 1, some "Payment recorded successfully"⟩ : PaymentResponse) =
          ⟨true, some (⟨1, 32, 100, "INR", "PAID", none, 0⟩ : Payment).id,
            some "Payment recorded successfully"⟩ ∧
        (⟨[⟨1, 32, 100, "INR", "PAID", none, 0⟩], 2, 1⟩ : Store).rows =
          Store.empty.rows ++ [⟨1, 32, 100, "INR", "PAID", none, 0⟩] ∧
        (⟨1, 32, 100, "INR", "PAID", none, 0⟩ : Payment).id = Store.empty.next_id ∧
        (⟨1, 32, 100, "INR", "PAID", none, 0⟩ : Payment).created_at = Store.empty.now) :=
  ⟨submit_empty_100,
    submit_returns_stored_record Store.empty 1 ⟨7, 100, some "INR", none⟩ _ _ _
      submit_empty_100⟩

/-! ### Queue dispatcher -/

/-- The response of `POST /payments/queue/`:
`{status, message_id, user_id, amount}`. -/
structure QueueResponse where
  status : String
  message_id : String
  user_id : Int
  amount : Rat
deriving Repr, DecidableEq

/-- The serialized body of a single queued payment message:
`json.dumps(payment.dict())` of a `PaymentCreate`. -/
structure QueueMsg where
  user_id : Int
  amount : Rat
  currency : Option String
  description : Option String
deriving Repr, DecidableEq

/-- The handler body of `POST /payments/queue/` (`create_payment_queue`):
overwrites `user_id` with `DEFAULT_USER_ID`, replaces a falsy or
non-positive amount with a random one, serializes the payment and sends it
to SQS (`msgId` is the `MessageId` the queue returns).  Returns the message
body handed to the queue and the HTTP response. -/
def create_payment_queue (rand : Rat) (msgId : String) (payment : PaymentCreate) :
    QueueMsg × QueueResponse :=
  let p1 := { payment with user_id := DEFAULT_USER_ID }
  let p2 := if p1.amount ≤ 0 then { p1 with amount := rand } else p1
  let body : QueueMsg := ⟨p2.user_id, p2.amount, p2.currency, p2.description⟩
  (body, ⟨"queued", msgId, p2.user_id, p2.amount⟩)

/-- The `payment_data` body of one auto-generated bulk message. -/
structure BulkMsg where
  user_id : Int
  amount : Rat
  currency : String
  status : String
  description : String
deriving Repr, DecidableEq

/-- One entry of an SQS `send_message_batch` call:
`{"Id": str(i), "MessageBody": json.dumps(payment_data)}`. -/
structure Entry where
  id : String
  body : BulkMsg
deriving Repr, DecidableEq

/-- The relevant part of an SQS `send_message_batch` response: the lists of
per-entry successes and failures. -/
structure BatchResp where
  successful : List String
  failed : List String
deriving Repr, DecidableEq

/-- The result `{status, success, failed}` of `POST /payments/queue/bulk/`. -/
structure BulkResult where
  status : String
  success : Nat
  failed : Nat
deriving Repr, DecidableEq

/-- The messages built by the loop `for i in range(total_messages)` in
`create_bulk_payments`: user 32, random amount (`rand i`), currency "INR",
status "SUCCESS", descriptions numbered from 1. -/
def mkBulkMessages (total_messages : Nat) (rand : Nat → Rat) : List Entry :=
  (List.range total_messages).map (fun i =>
    ⟨toString i, ⟨32, rand i, "INR", "SUCCESS",
      "Auto-generated batch payment #" ++ toString (i + 1)⟩⟩)

/-- `messages[j:j+10]` for `j in range(0, len(messages), 10)`: consecutive
chunks of at most ten entries.  The fuel argument bounds the number of loop
iterations; `l.length` is always enough. -/
def chunksGo {α : Type} : Nat → List α → List (List α)
  | 0, _ => []
  | _, [] => []
  | Nat.succ fuel, a :: rest =>
    (a :: rest).take 10 :: chunksGo fuel ((a :: rest).drop 10)

def chunks10 {α : Type} (l : List α) : List (List α) :=
  chunksGo l.length l

/-- The handler body of `POST /payments/queue/bulk/` (`create_bulk_payments`).
A `batch_size` below one raises `HTTPException(400, ...)` inside the `try`;
the blanket `except Exception` re-raises it as
`HTTPException(500, str(e))`.  Otherwise the handler builds `batch_size`
messages, sends them in chunks of ten via `send_message_batch` (the oracle
`sendBatch`), and sums the per-chunk `Successful` and `Failed` counts.
Returns the HTTP outcome together with the list of chunks actually handed to
the queue (empty when the guard fires, since the error is raised before any
send). -/
def create_bulk_payments (batch_size : Int) (rand : Nat → Rat)
    (sendBatch : List Entry → BatchResp) :
    Except ApiError BulkResult × List (List Entry) :=
  if batch_size < 1 then
    (.error (.http 500 "400: Batch size must be at least 1."), [])
  else
    let messages := mkBulkMessages batch_size.toNat rand
    let chunks := chunks10 messages
    let success_count := (chunks.map (fun c => (sendBatch c).successful.length)).sum
    let fail_count := (chunks.map (fun c => (sendBatch c).failed.length)).sum
    (.ok ⟨"batch_sent", success_count, fail_count⟩, chunks)

/-! ### Claims about fetch and the queue -/

/-- C4 (refuted as stated — code bug): fetching an id that was never issued
does NOT surface as a NotFound (404) error.  The handler raises
`HTTPException(404, "Payment not found")` inside its `try` block, the
blanket `except Exception` catches that very exception, and the caller
receives a 500 Internal Server Error instead.  Concretely: on an empty
store, fetching id 1 yields HTTP 500. -/
theorem read_payment_unknown_id_is_500 :
    read_payment Store.empty 1 = .error (.http 500 "404: Payment not found") ∧
      (.http 500 "404: Payment not found") ≠ ApiError.http 404 "Payment not found" := by
  exact ⟨rfl, by simp⟩

/-- C5: bulk enqueue with 25 items hands the transport exactly three chunks,
of sizes 10, 10 and 5, and reports as accepted (resp. rejected) the sum over
those chunks of the per-chunk success (resp. failure) counts returned by the
transport. -/
theorem bulk_25_chunks_and_counts (rand : Nat → Rat) (sendBatch : List Entry → BatchResp) :
    (create_bulk_payments 25 rand sendBatch).2.map List.length = [10, 10, 5] ∧
      (create_bulk_payments 25 rand sendBatch).1 =
        .ok ⟨"batch_sent",
          ((create_bulk_payments 25 rand sendBatch).2.map
            (fun c => (sendBatch c).successful.length)).sum,
          ((create_bulk_payments 25 rand sendBatch).2.map
            (fun c => (sendBatch c).failed.length)).sum⟩ :=
  ⟨rfl, rfl⟩

/-- C9: whatever user id the client supplies, the row persisted by the
direct-insert handler and the message serialized to the queue by the
single-enqueue handler both carry user id 32. -/
theorem persisted_and_queued_user_id_is_32 (db : Store) (rand : Rat)
    (msgId : String) (p : PaymentCreate) :
    ((add_payment db rand p).2.1).user_id = 32 ∧
      ((create_payment_queue rand msgId p).1).user_id = 32 := by
  constructor
  · by_cases hc : p.amount ≤ 0 <;>
      simp [add_payment, create_payment, DEFAULT_USER_ID, hc]
  · by_cases hc : p.amount ≤ 0 <;>
      simp [create_payment_queue, DEFAULT_USER_ID, hc]

/-- C10: bulk enqueue called with a batch size below one returns an error
and hands nothing to the queue: the list of dispatched chunks is empty. -/
theorem bulk_rejects_bad_batch_size (batch_size : Int) (rand : Nat → Rat)
    (sendBatch : List Entry → BatchResp) (h : batch_size < 1) :
    create_bulk_payments batch_size rand sendBatch =
      (.error (.http 500 "400: Batch size must be at least 1."), []) := by
  simp [create_bulk_payments, if_pos h]

theorem bulk_rejects_bad_batch_size_witness :
    (0 : Int) < 1 ∧
      create_bulk_payments 0 (fun _ => 1) (fun _ => ⟨[], []⟩) =
        (.error (.http 500 "400: Batch size must be at least 1."), []) :=
  ⟨by decide, bulk_rejects_bad_batch_size 0 (fun _ => 1) (fun _ => ⟨[], []⟩) (by decide)⟩

end PaymentsApi
